import Mathlib

/-!
# Verification of the CosyVoice_app model download subsystem

Shallow embedding of the model download subsystem:

* `backend/model_download_service.py` — `ModelDownloadStatus`, `ModelInfo`,
  `DownloadProgress`, and the `ModelDownloadService` operations
  (`check_model_status`, `start_download`, `cancel_download`,
  `get_download_progress`, `_on_download_progress`, `_on_download_finished`).
* `ui/download_worker.py` — `ModelDownloadWorker.run`,
  `_update_fake_progress`, and the polling loop of `_download_with_progress`,
  modelled as a signal-emission trace.
* `ui/model_download_controller.py` — `_on_delete_requested`, including the
  Python attribute lookup on the service object.

Python `datetime` values are embedded as rational timestamps (seconds);
Python float arithmetic on progress values is embedded as exact rational
arithmetic; Python dicts keyed by `model_id` are embedded as
insertion-ordered association lists.  `PathManager` and the download
manager live outside `src/` and are treated as external collaborators:
they appear only through the methods the embedded code calls, as opaque
function-valued parameters (fallible methods return `Except`, mirroring
Python exceptions).
-/

namespace CosyVoiceApp

/-- Embedding of `ModelDownloadStatus` (model_download_service.py lines 17-22). -/
inductive ModelDownloadStatus where
  | NOT_DOWNLOADED
  | DOWNLOADING
  | DOWNLOADED
  | ERROR
deriving DecidableEq, Repr

/-- Embedding of the `ModelInfo` dataclass (model_download_service.py lines 25-32). -/
structure ModelInfo where
  id : String
  name : String
  size : String
  description : String
  model_type : String
deriving DecidableEq, Repr

/-- Embedding of the `DownloadProgress` dataclass with its dataclass defaults
(model_download_service.py lines 35-47).  `start_time : Option ℚ` embeds the
optional `datetime` as a timestamp in seconds. -/
structure DownloadProgress where
  model_id : String
  current : Int := 0
  total : Int := 0
  percentage : Int := 0
  speed : String := "0 MB/s"
  eta : String := "00:00:00"
  status_text : String := ""
  is_downloading : Bool := false
  start_time : Option ℚ := none
  error_message : String := ""
deriving DecidableEq, Repr

/-- The catalog built by `ModelDownloadService._init_available_models`
(model_download_service.py lines 97-142). -/
def available_models : List ModelInfo :=
  [ { id := "cosyvoice3_2512", name := "CosyVoice3-0.5B-2512", size := "~1.2GB",
      description := "Latest CosyVoice3 model with 2.5kHz sampling rate. Best quality, recommended for most use cases.",
      model_type := "cosyvoice3" },
    { id := "cosyvoice2", name := "CosyVoice2-0.5B", size := "~980MB",
      description := "CosyVoice2 model with balanced performance and speed.",
      model_type := "cosyvoice2" },
    { id := "cosyvoice_300m", name := "CosyVoice-300M", size := "~600MB",
      description := "Lightweight CosyVoice model, faster inference with good quality.",
      model_type := "cosyvoice" },
    { id := "cosyvoice_300m_sft", name := "CosyVoice-300M-SFT", size := "~620MB",
      description := "Fine-tuned 300M model for specific speaking styles.",
      model_type := "cosyvoice" },
    { id := "cosyvoice_300m_instruct", name := "CosyVoice-300M-Instruct", size := "~620MB",
      description := "Instruction-tuned model for precise control over voice characteristics.",
      model_type := "cosyvoice" },
    { id := "cosyvoice_ttsfrd", name := "CosyVoice-TTSFRD", size := "~550MB",
      description := "Fast response model optimized for real-time applications.",
      model_type := "cosyvoice" } ]

/-- Embedding of `ModelDownloadService.get_model_info`
(model_download_service.py lines 156-161): first catalog entry whose id
matches, else `None`. -/
def get_model_info (model_id : String) : Option ModelInfo :=
  available_models.find? (fun model => model.id = model_id)

/-- Python `dict` lookup `d.get(k)` / `d[k]` on a `model_id`-keyed dict,
embedded as an association list with unique keys. -/
def dictLookup {α : Type} : List (String × α) → String → Option α
  | [], _ => none
  | (k', v) :: rest, k => if k' = k then some v else dictLookup rest k

/-- Python `dict` assignment `d[k] = v`: replaces the value at an existing
key in place, otherwise appends (Python dicts preserve insertion order). -/
def dictInsert {α : Type} : List (String × α) → String → α → List (String × α)
  | [], k, v => [(k, v)]
  | (k', v') :: rest, k, v =>
    if k' = k then (k, v) :: rest else (k', v') :: dictInsert rest k v

/-- The `PathManager` collaborator (backend/path_manager.py, outside `src/`),
as the interface surface `ModelDownloadService` calls: the six model-path
getters and `check_cosyvoice3_model_integrity` (only the first component of
its returned triple is used by the service).  `Except String` embeds the
possibility that a method raises. -/
structure PathManager where
  get_cosyvoice3_2512_model_path : Except String String
  get_cosyvoice2_model_path : Except String String
  get_cosyvoice_300m_model_path : Except String String
  get_cosyvoice_300m_sft_model_path : Except String String
  get_cosyvoice_300m_instruct_model_path : Except String String
  get_cosyvoice_ttsfrd_model_path : Except String String
  check_cosyvoice3_model_integrity : String → Except String Bool

/-- The `path_checks` dict of `check_model_status`
(model_download_service.py lines 175-184): maps each known id to its
path-getter, `None` for unknown ids. -/
def path_checks (pm : PathManager) (model_id : String) : Option (Except String String) :=
  if model_id = "cosyvoice3_2512" then some pm.get_cosyvoice3_2512_model_path
  else if model_id = "cosyvoice2" then some pm.get_cosyvoice2_model_path
  else if model_id = "cosyvoice_300m" then some pm.get_cosyvoice_300m_model_path
  else if model_id = "cosyvoice_300m_sft" then some pm.get_cosyvoice_300m_sft_model_path
  else if model_id = "cosyvoice_300m_instruct" then some pm.get_cosyvoice_300m_instruct_model_path
  else if model_id = "cosyvoice_ttsfrd" then some pm.get_cosyvoice_ttsfrd_model_path
  else none

/-- The mutable state of the `ModelDownloadService` singleton
(model_download_service.py lines 86-90): whether `_download_manager` is set
(truthy), the injected `_path_manager`, the keys of `_download_tasks`
(worker objects carry no state the service reads), and `_download_progress`. -/
structure ServiceState where
  download_manager : Bool
  path_manager : Option PathManager
  download_tasks : List String
  download_progress : List (String × DownloadProgress)

/-- Embedding of `ModelDownloadService.check_model_status`
(model_download_service.py lines 163-205).  `fs` is `os.path.exists`.
Exceptions raised by a `PathManager` method surface as `ERROR` (the
`except` branch); the primary model `cosyvoice3_2512` goes through
`check_cosyvoice3_model_integrity`, every other known model through a bare
directory-existence test. -/
def check_model_status (s : ServiceState) (fs : String → Bool)
    (model_id : String) : ModelDownloadStatus :=
  match s.path_manager with
  | none => ModelDownloadStatus.NOT_DOWNLOADED
  | some pm =>
    match path_checks pm model_id with
    | none => ModelDownloadStatus.NOT_DOWNLOADED
    | some (Except.error _) => ModelDownloadStatus.ERROR
    | some (Except.ok model_path) =>
      if model_id = "cosyvoice3_2512" then
        match pm.check_cosyvoice3_model_integrity model_path with
        | Except.error _ => ModelDownloadStatus.ERROR
        | Except.ok is_complete =>
          if is_complete then ModelDownloadStatus.DOWNLOADED
          else ModelDownloadStatus.NOT_DOWNLOADED
      else
        if fs model_path then ModelDownloadStatus.DOWNLOADED
        else ModelDownloadStatus.NOT_DOWNLOADED

/-- Embedding of `ModelDownloadService.start_download`
(model_download_service.py lines 207-272) at time `t`: rejected when a task
for `model_id` already exists, when the id is unknown to the catalog, or
when no download manager was injected; otherwise records a fresh
`DownloadProgress` (with `is_downloading=True`, `start_time=now`), registers
the worker under `model_id`, starts it, and returns `True`. -/
def start_download (s : ServiceState) (t : ℚ) (model_id : String) :
    Bool × ServiceState :=
  if model_id ∈ s.download_tasks then (false, s)
  else
    match get_model_info model_id with
    | none => (false, s)
    | some _info =>
      if s.download_manager = false then (false, s)
      else
        let prog : DownloadProgress :=
          { model_id := model_id, is_downloading := true, start_time := some t }
        let s1 : ServiceState :=
          { s with download_progress := dictInsert s.download_progress model_id prog }
        (true, { s1 with download_tasks := s1.download_tasks ++ [model_id] })

/-- Embedding of `ModelDownloadService.cancel_download`
(model_download_service.py lines 274-305): `False` when no task is
registered for `model_id`; otherwise calls `worker.cancel()` (an effect on
the worker, not on service state) and marks the progress entry
`is_downloading=False`, `status_text="Cancelling..."`. -/
def cancel_download (s : ServiceState) (model_id : String) : Bool × ServiceState :=
  if model_id ∈ s.download_tasks then
    match dictLookup s.download_progress model_id with
    | none => (true, s)
    | some p =>
      let p1 : DownloadProgress :=
        { p with is_downloading := false, status_text := "Cancelling..." }
      (true, { s with download_progress := dictInsert s.download_progress model_id p1 })
  else (false, s)

/-- The progress dict returned by `ModelDownloadService.get_download_progress`
(model_download_service.py line 315). -/
structure ProgressSnapshot where
  current : Int
  total : Int
  percentage : Int
  speed : String
  eta : String
  status_text : String
  is_downloading : Bool
  error_message : String
deriving DecidableEq, Repr

/-- Embedding of `ModelDownloadService.get_download_progress`
(model_download_service.py lines 307-341).  The second component of the
result is the service state after the call: the method only reads under the
lock, which the returned state makes explicit. -/
def get_download_progress (s : ServiceState) (model_id : String) :
    ProgressSnapshot × ServiceState :=
  match dictLookup s.download_progress model_id with
  | none =>
    ({ current := 0, total := 0, percentage := 0, speed := "0 MB/s",
       eta := "00:00:00", status_text := "Not started",
       is_downloading := false, error_message := "" }, s)
  | some p =>
    ({ current := p.current, total := p.total, percentage := p.percentage,
       speed := p.speed, eta := p.eta, status_text := p.status_text,
       is_downloading := p.is_downloading,
       error_message := p.error_message }, s)

/-- Python `f"{n:02d}"`: decimal rendering of an integer padded with zeros
to a minimum width of two characters. -/
def two_digits (n : Int) : String :=
  let str := toString n
  if str.length < 2 then "0" ++ str else str

/-- Python `%` on numbers (sign follows the divisor): for a positive divisor
the result lies in `[0, b)`. -/
def pymod (a b : ℚ) : ℚ := a - b * ((Int.floor (a / b) : Int) : ℚ)

/-- The ETA format string of `_on_download_progress`
(model_download_service.py line 378):
`f"{int(rs // 3600):02d}:{int((rs % 3600) // 60):02d}:{int(rs % 60):02d}"`.
Python `//` is `Int.floor` of the quotient, and `int` of the nonnegative
remainders truncates, which is again `Int.floor`. -/
def formatHMS (rs : ℚ) : String :=
  two_digits (Int.floor (rs / 3600)) ++ ":" ++
    two_digits (Int.floor (pymod rs 3600 / 60)) ++ ":" ++
    two_digits (Int.floor (pymod rs 60))

/-- Rounding to the nearest integer with ties to even, the rule Python's
fixed-point float formatting uses (binary-float representation error aside,
which this rational embedding abstracts away). -/
def roundHalfEven (x : ℚ) : Int :=
  let f := Int.floor x
  if x - (f : ℚ) < 1/2 then f
  else if (1/2 : ℚ) < x - (f : ℚ) then f + 1
  else if f % 2 = 0 then f else f + 1

/-- Python `f"{q:.2f}"` for a nonnegative value: two decimal places,
ties to even. -/
def formatFixed2 (q : ℚ) : String :=
  let n := roundHalfEven (q * 100)
  toString (n / 100) ++ "." ++ two_digits (n % 100)

/-- The three signals of `DownloadSignals` (download_worker.py lines 12-16),
shared by the worker and re-emitted by the service. -/
inductive Signal where
  | progress (model_id : String) (current total percentage : Int)
  | finished (model_id : String) (success : Bool) (error_msg : String)
  | status_update (model_id : String) (status_text : String)
deriving DecidableEq, Repr

/-- Embedding of `ModelDownloadService._on_download_progress`
(model_download_service.py lines 356-386) at wall-clock time `t`: updates
the byte counters, recomputes speed as average bytes per second since
`start_time` (when a start time is recorded, the percentage is positive and
time has elapsed), recomputes the ETA from that speed while the percentage
is below 100 (with `remaining_seconds = 0` when the speed is zero), and
re-emits the progress signal. -/
def on_download_progress (t : ℚ) (model_id : String)
    (current total percentage : Int) (s : ServiceState) :
    ServiceState × List Signal :=
  match dictLookup s.download_progress model_id with
  | none => (s, [Signal.progress model_id current total percentage])
  | some p =>
    let p1 : DownloadProgress :=
      { p with current := current, total := total, percentage := percentage }
    let p2 : DownloadProgress :=
      match p1.start_time with
      | none => p1
      | some st =>
        if 0 < percentage then
          let elapsed : ℚ := t - st
          if 0 < elapsed then
            let speed_mb : ℚ := (current : ℚ) / (1024 * 1024) / elapsed
            let p' : DownloadProgress :=
              { p1 with speed := formatFixed2 speed_mb ++ " MB/s" }
            if percentage < 100 then
              let remaining_bytes : ℚ := (total : ℚ) - (current : ℚ)
              let remaining_seconds : ℚ :=
                if 0 < speed_mb then remaining_bytes / (speed_mb * (1024 * 1024)) else 0
              { p' with eta := formatHMS remaining_seconds }
            else p'
          else p1
        else p1
    ({ s with download_progress := dictInsert s.download_progress model_id p2 },
      [Signal.progress model_id current total percentage])

/-- Embedding of `ModelDownloadService._on_download_finished`
(model_download_service.py lines 388-418): marks the progress entry no
longer downloading, records either completion (percentage 100, text
"Download complete") or the error message with text `"Error: " + msg`,
joins and removes the worker entry, and re-emits the finished signal. -/
def on_download_finished (model_id : String) (success : Bool)
    (error_msg : String) (s : ServiceState) : ServiceState × List Signal :=
  let s1 : ServiceState :=
    match dictLookup s.download_progress model_id with
    | none => s
    | some p =>
      let p1 : DownloadProgress := { p with is_downloading := false }
      let p2 : DownloadProgress :=
        if success then { p1 with percentage := 100, status_text := "Download complete" }
        else { p1 with error_message := error_msg,
                       status_text := "Error: " ++ error_msg }
      { s with download_progress := dictInsert s.download_progress model_id p2 }
  let s2 : ServiceState :=
    if model_id ∈ s1.download_tasks then
      { s1 with download_tasks := s1.download_tasks.erase model_id }
    else s1
  (s2, [Signal.finished model_id success error_msg])

/-- The fake-progress fields of `ModelDownloadWorker`
(download_worker.py lines 38-39): `_current_fake_progress` (a float
percentage, embedded as ℚ) and `_last_fake_update_time`. -/
structure FakeProgressState where
  current_fake_progress : ℚ
  last_fake_update_time : ℚ
deriving DecidableEq, Repr

/-- The simulated total of `_update_fake_progress`
(download_worker.py line 146): 1 GiB. -/
def fake_total : Int := 1024 * 1024 * 1024

/-- The simulated byte counter `int(progress * 10 * 1024 * 1024)`
(download_worker.py lines 145 and 217); for the nonnegative progress values
that arise, Python `int` truncation is `Int.floor`. -/
def fake_bytes (progress : ℚ) : Int := Int.floor (progress * (10 * 1024 * 1024))

/-- Embedding of `ModelDownloadWorker._update_fake_progress`
(download_worker.py lines 93-156) at wall-clock time `now`.  `inc` is the
randomized increment the body draws (a product of the stage-dependent base
increment and uniform factors, plus an occasional jump — always
nonnegative); the update only fires below 90% and at most every 500ms, and
clamps the new percentage to at most 90. -/
def update_fake_progress (model_id : String) (st : FakeProgressState)
    (now inc : ℚ) : FakeProgressState × List Signal :=
  if 90 ≤ st.current_fake_progress then (st, [])
  else if (1/2 : ℚ) ≤ now - st.last_fake_update_time then
    let f := min 90 (st.current_fake_progress + inc)
    ({ current_fake_progress := f, last_fake_update_time := now },
      [Signal.progress model_id (fake_bytes f) fake_total (Int.floor f)])
  else (st, [])

/-- The real-progress check of the polling loop
(download_worker.py lines 209-225): when the download manager reports a
status with a `progress` attribute, `real = some (int(status.progress * 100))`;
if that beats the simulated percentage the worker adopts it and emits it. -/
def check_real_progress (model_id : String) (st : FakeProgressState)
    (now : ℚ) (real : Option Int) : FakeProgressState × List Signal :=
  match real with
  | none => (st, [])
  | some rp =>
    if st.current_fake_progress < (rp : ℚ) then
      ({ current_fake_progress := (rp : ℚ), last_fake_update_time := now },
        [Signal.progress model_id (rp * (10 * 1024 * 1024)) fake_total rp])
    else (st, [])

/-- One observation of the polling loop of `_download_with_progress`
(download_worker.py lines 203-233): the wall-clock time of the iteration,
the randomized fake increment, and the real progress reported by the
download manager (if any). -/
structure PollStep where
  now : ℚ
  inc : ℚ
  real : Option Int
deriving DecidableEq, Repr

/-- The polling loop of `_download_with_progress`
(download_worker.py lines 203-233), driven by the schedule of observations
it makes: each iteration runs `_update_fake_progress` and then the
real-progress check, in that order. -/
def poll_loop (model_id : String) (st : FakeProgressState) :
    List PollStep → FakeProgressState × List Signal
  | [] => (st, [])
  | step :: rest =>
    let r1 := update_fake_progress model_id st step.now step.inc
    let r2 := check_real_progress model_id r1.1 step.now step.real
    let r3 := poll_loop model_id r2.1 rest
    (r3.1, r1.2 ++ r2.2 ++ r3.2)

/-- Python truthiness on the stored `_download_error` as used in
`run` (download_worker.py line 84): `None` and the empty string both fall
back to "Download failed". -/
def error_or_default (err : Option String) : String :=
  match err with
  | none => "Download failed"
  | some msg => if msg = "" then "Download failed" else msg

/-- The terminal emissions of `ModelDownloadWorker.run`
(download_worker.py lines 71-86): on success a 100% progress signal, the
finished signal, then a final status update; otherwise a single finished
signal carrying "Download cancelled" when `_is_cancelled` was set, else the
recorded download error (defaulted). -/
def terminal_signals (model_id : String) (success user_cancelled : Bool)
    (err : Option String) : List Signal :=
  if success then
    [Signal.progress model_id 100 100 100,
     Signal.finished model_id true "",
     Signal.status_update model_id "Download complete"]
  else if user_cancelled then
    [Signal.finished model_id false "Download cancelled"]
  else
    [Signal.finished model_id false (error_or_default err)]

/-- The emissions of `_download_with_progress`
(download_worker.py lines 158-257) for a run whose polling loop observes
`steps`, where `user_cancelled` is the final value of `_is_cancelled` and
`success` the download thread's result: the "Connecting to server..."
status, the loop emissions, then "Cancelling..." when cancelled and
"Download completed" when the transfer succeeded despite the cancel. -/
def dwp_signals (model_id : String) (st : FakeProgressState)
    (steps : List PollStep) (user_cancelled success : Bool) : List Signal :=
  Signal.status_update model_id "Connecting to server..." ::
    ((poll_loop model_id st steps).2
      ++ (if user_cancelled then [Signal.status_update model_id "Cancelling..."] else [])
      ++ (if success && user_cancelled then
            [Signal.status_update model_id "Download completed"] else []))

/-- The full emission trace of `ModelDownloadWorker.run`
(download_worker.py lines 41-86) along its non-exception path, started at
time `start_time` (run resets `_current_fake_progress = 0` and
`_last_fake_update_time = time.time()` before the transfer). -/
def run_signals (model_id : String) (steps : List PollStep) (start_time : ℚ)
    (user_cancelled success : Bool) (err : Option String) : List Signal :=
  Signal.status_update model_id "Initializing download..." ::
    (dwp_signals model_id
        { current_fake_progress := 0, last_fake_update_time := start_time }
        steps user_cancelled success
      ++ terminal_signals model_id success user_cancelled err)

/-- The `current` field of every progress signal in a trace, in emission
order: the reported `bytes_downloaded` sequence. -/
def progress_bytes : List Signal → List Int
  | [] => []
  | Signal.progress _ current _ _ :: rest => current :: progress_bytes rest
  | _ :: rest => progress_bytes rest

/-- The `percentage` field of every progress signal in a trace, in emission
order. -/
def progress_pcts : List Signal → List Int
  | [] => []
  | Signal.progress _ _ _ percentage :: rest => percentage :: progress_pcts rest
  | _ :: rest => progress_pcts rest

/-- The methods the `ModelDownloadService` class body defines
(model_download_service.py lines 50-453), i.e. the attributes a
`service.<name>` lookup can resolve to a bound method. -/
def model_download_service_methods : List String :=
  ["__new__", "__init__", "_init_available_models", "set_download_manager",
   "set_path_manager", "get_available_models", "get_model_info",
   "check_model_status", "start_download", "cancel_download",
   "get_download_progress", "_on_download_progress", "_on_download_finished",
   "_on_download_status_update", "get_downloaded_models", "cleanup_cache"]

/-- The call `self.download_service.delete_model(model_id)`
(model_download_controller.py line 209): a Python attribute lookup on the
service followed by a call.  The lookup raises `AttributeError` because the
class defines no such method; the `ok` branch (reached only if the method
existed) would return its boolean. -/
def delete_model_call (s : ServiceState) : Except String (Bool × ServiceState) :=
  if "delete_model" ∈ model_download_service_methods then
    Except.ok (false, s)
  else
    Except.error "AttributeError: 'ModelDownloadService' object has no attribute 'delete_model'"

/-- The observable outcome of the controller's delete handler: the success
dialog, the "Delete failed" dialog (service returned `False`), or the
"Delete error" dialog from the `except` branch. -/
inductive DeleteUiOutcome where
  | modelDeleted
  | deleteFailedDialog
  | deleteErrorDialog (msg : String)
deriving DecidableEq, Repr

/-- Embedding of `ModelDownloadController._on_delete_requested`
(model_download_controller.py lines 194-225) after the user confirms the
deletion: dispatches `delete_model` on the service and maps the result to
the dialogs the handler shows; an exception from the call lands in the
handler's `except` branch ("Delete error"). -/
def on_delete_requested_confirmed (_model_id : String) (s : ServiceState) :
    DeleteUiOutcome × ServiceState :=
  match delete_model_call s with
  | Except.ok (true, s') => (DeleteUiOutcome.modelDeleted, s')
  | Except.ok (false, s') => (DeleteUiOutcome.deleteFailedDialog, s')
  | Except.error e => (DeleteUiOutcome.deleteErrorDialog e, s)

/-- The five catalog ids that are not the primary model. -/
def non_primary_model_ids : List String :=
  ["cosyvoice2", "cosyvoice_300m", "cosyvoice_300m_sft",
   "cosyvoice_300m_instruct", "cosyvoice_ttsfrd"]

/-- A concrete `PathManager` environment: every getter succeeds, and the
primary-model integrity check reports incomplete. -/
def pm_missing : PathManager :=
  { get_cosyvoice3_2512_model_path := Except.ok "models/CosyVoice3-0.5B-2512"
  , get_cosyvoice2_model_path := Except.ok "models/CosyVoice2-0.5B"
  , get_cosyvoice_300m_model_path := Except.ok "models/CosyVoice-300M"
  , get_cosyvoice_300m_sft_model_path := Except.ok "models/CosyVoice-300M-SFT"
  , get_cosyvoice_300m_instruct_model_path := Except.ok "models/CosyVoice-300M-Instruct"
  , get_cosyvoice_ttsfrd_model_path := Except.ok "models/CosyVoice-ttsfrd"
  , check_cosyvoice3_model_integrity := fun _ => Except.ok false }

/-- A fresh service with an injected download manager and no path manager. -/
def s_empty : ServiceState :=
  { download_manager := true, path_manager := none,
    download_tasks := [], download_progress := [] }

/-- A fresh service before `set_download_manager` was called. -/
def s_no_manager : ServiceState :=
  { download_manager := false, path_manager := none,
    download_tasks := [], download_progress := [] }

/-- A fresh service with both collaborators injected. -/
def s_with_pm : ServiceState :=
  { download_manager := true, path_manager := some pm_missing,
    download_tasks := [], download_progress := [] }

/-- A progress entry of a just-started download of cosyvoice2. -/
def p_started : DownloadProgress :=
  { model_id := "cosyvoice2", is_downloading := true, start_time := some 0 }

/-- A service with one active download session for cosyvoice2. -/
def s_downloading : ServiceState :=
  { download_manager := true, path_manager := none,
    download_tasks := ["cosyvoice2"],
    download_progress := [("cosyvoice2", p_started)] }

/-- A filesystem on which every path exists. -/
def fs_all : String → Bool := fun _ => true

/-- A filesystem on which no path exists. -/
def fs_none : String → Bool := fun _ => false

section Helpers

/-- Looking up a key right after a dict assignment to it yields the
assigned value. -/
lemma dictLookup_dictInsert_self {α : Type} (d : List (String × α))
    (k : String) (v : α) :
    dictLookup (dictInsert d k v) k = some v := by
  induction d with
  | nil => simp [dictInsert, dictLookup]
  | cons hd tl ih =>
    obtain ⟨k', v'⟩ := hd
    by_cases h : k' = k
    · simp [dictInsert, dictLookup, h]
    · simp [dictInsert, dictLookup, h, ih]

/-- A second `start_download` for an id with a registered task is a no-op
returning `False`. -/
lemma start_download_of_mem {s : ServiceState} {model_id : String} (t : ℚ)
    (h : model_id ∈ s.download_tasks) :
    start_download s t model_id = (false, s) := by
  simp [start_download, h]

/-- Characterization of when `start_download` accepts. -/
lemma start_download_true_iff (s : ServiceState) (t : ℚ) (model_id : String) :
    (start_download s t model_id).1 = true ↔
      model_id ∉ s.download_tasks ∧ get_model_info model_id ≠ none ∧
        s.download_manager = true := by
  by_cases hmem : model_id ∈ s.download_tasks
  · simp [start_download, hmem]
  · cases hinfo : get_model_info model_id with
    | none => simp [start_download, hmem, hinfo]
    | some info =>
      by_cases hdm : s.download_manager = false
      · simp [start_download, hmem, hinfo, hdm]
      · simp [start_download, hmem, hinfo, hdm]

/-- The accepted branch of `start_download`, explicitly. -/
lemma start_download_eq_of_ok {s : ServiceState} {t : ℚ} {model_id : String}
    {info : ModelInfo}
    (hmem : model_id ∉ s.download_tasks)
    (hinfo : get_model_info model_id = some info)
    (hdm : s.download_manager = true) :
    start_download s t model_id =
      (true,
        { s with
          download_progress := dictInsert s.download_progress model_id
            { model_id := model_id, is_downloading := true, start_time := some t },
          download_tasks := s.download_tasks ++ [model_id] }) := by
  simp [start_download, hmem, hinfo, hdm]

/-- The task list produced by an accepted `start_download`. -/
lemma start_download_tasks_of_true {s : ServiceState} {t : ℚ} {model_id : String}
    (h : (start_download s t model_id).1 = true) :
    (start_download s t model_id).2.download_tasks =
      s.download_tasks ++ [model_id] := by
  obtain ⟨hmem, hinfo, hdm⟩ := (start_download_true_iff s t model_id).1 h
  obtain ⟨info, hinfo'⟩ := Option.ne_none_iff_exists'.1 hinfo
  rw [start_download_eq_of_ok hmem hinfo' hdm]

/-- The last element of a list with an element appended. -/
lemma getLast?_append_singleton {α : Type} (l : List α) (a : α) :
    (l ++ [a]).getLast? = some a := by
  induction l with
  | nil => rfl
  | cons x xs ih =>
    cases xs with
    | nil => rfl
    | cons y ys => simpa [List.cons_append, List.getLast?_cons_cons] using ih

/-- `progress_bytes` distributes over concatenation. -/
lemma progress_bytes_append (l₁ l₂ : List Signal) :
    progress_bytes (l₁ ++ l₂) = progress_bytes l₁ ++ progress_bytes l₂ := by
  induction l₁ with
  | nil => rfl
  | cons hd tl ih => cases hd <;> simp [progress_bytes, ih]

/-- `progress_pcts` distributes over concatenation. -/
lemma progress_pcts_append (l₁ l₂ : List Signal) :
    progress_pcts (l₁ ++ l₂) = progress_pcts l₁ ++ progress_pcts l₂ := by
  induction l₁ with
  | nil => rfl
  | cons hd tl ih => cases hd <;> simp [progress_pcts, ih]

end Helpers

attribute [local semireducible] Rat.add Rat.mul Rat.inv Rat.sub

/-- C1: at most one live download session exists per model_id: once a
`start_download` call has been accepted, a further `start_download` for the
same model_id creates no second session or worker and returns `False`, and
exactly one task entry for that model_id is registered. -/
theorem C1_at_most_one_session (s : ServiceState) (t t' : ℚ) (model_id : String)
    (h : (start_download s t model_id).1 = true) :
    start_download (start_download s t model_id).2 t' model_id
        = (false, (start_download s t model_id).2) ∧
      (start_download s t model_id).2.download_tasks.count model_id = 1 := by
  obtain ⟨hmem, hinfo, hdm⟩ := (start_download_true_iff s t model_id).1 h
  obtain ⟨info, hinfo'⟩ := Option.ne_none_iff_exists'.1 hinfo
  rw [start_download_eq_of_ok hmem hinfo' hdm]
  constructor
  · exact start_download_of_mem t' (by simp)
  · simp [List.count_append, List.count_eq_zero.2 hmem]

/-- Witness for C1: starting cosyvoice2 on a fresh service succeeds, and the
second start is rejected leaving one task entry. -/
theorem C1_at_most_one_session_witness :
    (start_download s_empty 0 "cosyvoice2").1 = true ∧
      (start_download (start_download s_empty 0 "cosyvoice2").2 1 "cosyvoice2"
          = (false, (start_download s_empty 0 "cosyvoice2").2) ∧
        (start_download s_empty 0 "cosyvoice2").2.download_tasks.count "cosyvoice2" = 1) :=
  ⟨by decide, C1_at_most_one_session s_empty 0 1 "cosyvoice2" (by decide)⟩

/-- C2 counterexample: a service state with an active download session for
cosyvoice2 (task registered, progress entry `is_downloading`) on which
`check_model_status` returns `NOT_DOWNLOADED`, not `DOWNLOADING`: the
status check ignores session state. -/
theorem C2_counterexample :
    (start_download s_with_pm 0 "cosyvoice2").1 = true ∧
      "cosyvoice2" ∈ (start_download s_with_pm 0 "cosyvoice2").2.download_tasks ∧
      (dictLookup (start_download s_with_pm 0 "cosyvoice2").2.download_progress
          "cosyvoice2").map DownloadProgress.is_downloading = some true ∧
      check_model_status (start_download s_with_pm 0 "cosyvoice2").2 fs_none
          "cosyvoice2" = ModelDownloadStatus.NOT_DOWNLOADED := by
  decide

/-- C2 (amended): `check_model_status` never consults session state: it
never returns `DOWNLOADING`, and its result is unchanged when all download
tasks and progress entries are dropped from the state — it is a pure
function of the injected path manager and the filesystem
(integrity check for the primary model, directory existence otherwise,
`ERROR` when a path-manager call raises). -/
theorem C2_status_ignores_sessions (s : ServiceState) (fs : String → Bool)
    (model_id : String) :
    check_model_status s fs model_id ≠ ModelDownloadStatus.DOWNLOADING ∧
      check_model_status s fs model_id =
        check_model_status
          { s with download_tasks := [], download_progress := [] } fs model_id := by
  constructor
  · unfold check_model_status
    repeat' split
    all_goals decide
  · cases s
    rfl

/-- Witness for C2 on a service with an active cosyvoice2 session and no
path manager. -/
theorem C2_status_ignores_sessions_witness :
    check_model_status s_downloading fs_none "cosyvoice2"
        ≠ ModelDownloadStatus.DOWNLOADING ∧
      check_model_status s_downloading fs_none "cosyvoice2" =
        check_model_status
          { s_downloading with download_tasks := [], download_progress := [] }
          fs_none "cosyvoice2" :=
  C2_status_ignores_sessions s_downloading fs_none "cosyvoice2"

/-- C3 (code bug): the delete operation surfaced on the download façade is
broken: `ModelDownloadService` defines no `delete_model` method, so the
controller call `self.download_service.delete_model(model_id)` raises
`AttributeError` out of the façade; the controller only survives because
its generic `except` branch catches it and shows a "Delete error" dialog.
No model directory is ever removed and the boolean-return protocol is never
exercised. -/
theorem C3_delete_model_missing (model_id : String) (s : ServiceState) :
    "delete_model" ∉ model_download_service_methods ∧
      on_delete_requested_confirmed model_id s =
        (DeleteUiOutcome.deleteErrorDialog
          "AttributeError: 'ModelDownloadService' object has no attribute 'delete_model'",
          s) := by
  exact ⟨by decide, rfl⟩

/-- C6 counterexample: a successful download attempt whose finished signal
is followed by a further status-update notification, so the terminal
notification is not the last one emitted for the attempt. -/
theorem C6_counterexample :
    Signal.finished "cosyvoice2" true "" ∈
        run_signals "cosyvoice2" [] 0 false true none ∧
      (run_signals "cosyvoice2" [] 0 false true none).getLast? =
        some (Signal.status_update "cosyvoice2" "Download complete") := by
  decide

/-- C6 (amended): for failed and cancelled attempts the finished signal is
the last notification emitted by the worker, but on a successful attempt
the worker emits one further status update ("Download complete") after the
finished signal, which is therefore only second to last. -/
theorem C6_terminal_ordering (model_id : String) (steps : List PollStep)
    (t0 : ℚ) (user_cancelled : Bool) (err : Option String) :
    (run_signals model_id steps t0 user_cancelled false err).getLast? =
        some (Signal.finished model_id false
          (if user_cancelled then "Download cancelled" else error_or_default err)) ∧
      (run_signals model_id steps t0 user_cancelled true err).getLast? =
        some (Signal.status_update model_id "Download complete") := by
  constructor
  · cases user_cancelled with
    | false =>
      simp only [run_signals, terminal_signals, Bool.false_eq_true, if_false,
        if_neg Bool.false_ne_true]
      rw [← List.cons_append]
      exact getLast?_append_singleton _ _
    | true =>
      simp only [run_signals, terminal_signals, Bool.false_eq_true, if_false, if_true]
      rw [← List.cons_append]
      exact getLast?_append_singleton _ _
  · simp only [run_signals, terminal_signals, if_true]
    rw [show [Signal.progress model_id 100 100 100,
          Signal.finished model_id true "",
          Signal.status_update model_id "Download complete"]
        = [Signal.progress model_id 100 100 100,
           Signal.finished model_id true ""]
          ++ [Signal.status_update model_id "Download complete"] from rfl]
    rw [← List.append_assoc, ← List.cons_append]
    exact getLast?_append_singleton _ _

/-- Witness for C6 at a concrete failed attempt and a concrete successful
attempt with an empty polling schedule. -/
theorem C6_terminal_ordering_witness :
    (run_signals "cosyvoice2" [] 0 false false (some "boom")).getLast? =
        some (Signal.finished "cosyvoice2" false
          (if false then "Download cancelled" else error_or_default (some "boom"))) ∧
      (run_signals "cosyvoice2" [] 0 false true (some "boom")).getLast? =
        some (Signal.status_update "cosyvoice2" "Download complete") :=
  C6_terminal_ordering "cosyvoice2" [] 0 false (some "boom")

/-- C7 counterexample: an active session (accepted `start_download`,
`is_downloading = true`) whose façade snapshot reports speed 0
("0 MB/s") and eta "00:00:00" — a definite zero duration, not
Infinity/unknown — contradicting the claim that eta is reported as
Infinity/unknown whenever speed is 0. -/
theorem C7_counterexample :
    (start_download s_empty 0 "cosyvoice2").1 = true ∧
      (get_download_progress (start_download s_empty 0 "cosyvoice2").2
          "cosyvoice2").1.is_downloading = true ∧
      (get_download_progress (start_download s_empty 0 "cosyvoice2").2
          "cosyvoice2").1.speed = "0 MB/s" ∧
      (get_download_progress (start_download s_empty 0 "cosyvoice2").2
          "cosyvoice2").1.eta = "00:00:00" := by
  decide

/-- C8 counterexample: on a fresh service whose download manager has not
been injected, `start_download` of the known, not-currently-downloading
model cosyvoice2 returns `False`: the claimed "false exactly when already
active or unknown" misses the manager-not-set case. -/
theorem C8_counterexample :
    (start_download s_no_manager 0 "cosyvoice2").1 = false ∧
      "cosyvoice2" ∉ s_no_manager.download_tasks ∧
      get_model_info "cosyvoice2" ≠ none := by
  refine ⟨by decide, by decide, by decide⟩

/-- C8 (amended): `start_download` returns true exactly when no task for
the model_id is registered, the id is known to the catalog, and a download
manager has been injected; in that case it registers the background worker
(non-blocking in the source: the worker thread is started and the call
returns at once). -/
theorem C8_start_conditions (s : ServiceState) (t : ℚ) (model_id : String) :
    ((start_download s t model_id).1 = true ↔
        model_id ∉ s.download_tasks ∧ get_model_info model_id ≠ none ∧
          s.download_manager = true) ∧
      ((start_download s t model_id).1 = true →
        (start_download s t model_id).2.download_tasks =
          s.download_tasks ++ [model_id]) :=
  ⟨start_download_true_iff s t model_id, fun h => start_download_tasks_of_true h⟩

/-- Witness for C8 at a concrete accepted call. -/
theorem C8_start_conditions_witness :
    (start_download s_empty 0 "cosyvoice2").2.download_tasks =
      s_empty.download_tasks ++ ["cosyvoice2"] :=
  (C8_start_conditions s_empty 0 "cosyvoice2").2 (by decide)

/-- C10: for a model_id with no recorded progress entry,
`get_download_progress` returns exactly the default snapshot and leaves the
service state unchanged. -/
theorem C10_default_snapshot (s : ServiceState) (model_id : String)
    (h : dictLookup s.download_progress model_id = none) :
    get_download_progress s model_id =
      ({ current := 0, total := 0, percentage := 0, speed := "0 MB/s",
         eta := "00:00:00", status_text := "Not started",
         is_downloading := false, error_message := "" }, s) := by
  unfold get_download_progress
  rw [h]

/-- Witness for C10 on a fresh service. -/
theorem C10_default_snapshot_witness :
    get_download_progress s_empty "cosyvoice2" =
      ({ current := 0, total := 0, percentage := 0, speed := "0 MB/s",
         eta := "00:00:00", status_text := "Not started",
         is_downloading := false, error_message := "" }, s_empty) :=
  C10_default_snapshot s_empty "cosyvoice2" rfl

/-- C4 counterexample: the terminal notification of a cancelled attempt
(`_is_cancelled` set, the download thread having recorded the
`DownloadCancelledError` as "Cancelled") is byte-for-byte the same
`finished(model_id, False, "Download cancelled")` as that of a failed,
never-cancelled attempt whose recorded error text happens to be
"Download cancelled": the two outcomes are not distinguishable. -/
theorem C4_counterexample :
    terminal_signals "cosyvoice2" false true (some "Cancelled")
        = terminal_signals "cosyvoice2" false false (some "Download cancelled") ∧
      terminal_signals "cosyvoice2" false true (some "Cancelled")
        = [Signal.finished "cosyvoice2" false "Download cancelled"] :=
  ⟨rfl, rfl⟩

/-- C4 (amended): a cancelled attempt terminates with the failure-shaped
signal `finished(model_id, False, "Download cancelled")` — the same signal
constructor and success flag as a failure, distinguishable from one only
when the failure message differs from "Download cancelled" — and the
session afterwards records it as an error: `is_downloading = False`,
`error_message = "Download cancelled"`,
`status_text = "Error: Download cancelled"`. -/
theorem C4_cancellation_surfacing (s : ServiceState) (model_id : String)
    (p : DownloadProgress) (err : Option String)
    (hmem : model_id ∈ s.download_tasks)
    (hp : dictLookup s.download_progress model_id = some p) :
    terminal_signals model_id false true err
        = [Signal.finished model_id false "Download cancelled"] ∧
      (∀ e : Option String,
        terminal_signals model_id false false e
            = terminal_signals model_id false true err
          ↔ error_or_default e = "Download cancelled") ∧
      (cancel_download s model_id).1 = true ∧
      dictLookup (on_download_finished model_id false "Download cancelled"
          (cancel_download s model_id).2).1.download_progress model_id =
        some { p with is_downloading := false,
                      status_text := "Error: Download cancelled",
                      error_message := "Download cancelled" } := by
  refine ⟨rfl, ?_, ?_, ?_⟩
  · intro e
    simp [terminal_signals]
  · simp [cancel_download, hmem, hp]
  · simp only [cancel_download, if_pos hmem, hp]
    simp only [on_download_finished, dictLookup_dictInsert_self]
    simp [hmem, dictLookup_dictInsert_self]

/-- Witness for C4 on a service with one active cosyvoice2 session. -/
theorem C4_cancellation_surfacing_witness :
    (cancel_download s_downloading "cosyvoice2").1 = true :=
  (C4_cancellation_surfacing s_downloading "cosyvoice2" p_started none
      (by decide) (by decide)).2.2.1

/-- C7 (amended): for an active session with a recorded start time, a
progress signal with percentage strictly between 0 and 100 after positive
elapsed time updates the snapshot with speed equal to bytes downloaded per
elapsed second since the session start (smoothed, formatted in MB/s) and
eta equal to remaining bytes divided by that speed (formatted HH:MM:SS);
when the speed is zero the recorded eta is the definite "00:00:00", not
Infinity/unknown. -/
theorem C7_speed_eta (s : ServiceState) (model_id : String)
    (p : DownloadProgress) (st t : ℚ) (current total percentage : Int)
    (hp : dictLookup s.download_progress model_id = some p)
    (hst : p.start_time = some st)
    (hpos : 0 < percentage) (hlt : percentage < 100) (he : 0 < t - st) :
    ∃ p', dictLookup (on_download_progress t model_id current total percentage
            s).1.download_progress model_id = some p' ∧
      p'.speed = formatFixed2 ((current : ℚ) / (1024 * 1024) / (t - st)) ++ " MB/s" ∧
      (0 < current →
        p'.eta = formatHMS (((total : ℚ) - (current : ℚ)) /
          ((current : ℚ) / (1024 * 1024) / (t - st) * (1024 * 1024)))) ∧
      (current ≤ 0 → p'.eta = formatHMS 0) ∧
      formatHMS 0 = "00:00:00" ∧
      p'.current = current ∧ p'.total = total ∧ p'.percentage = percentage := by
  have h1 : (0 : ℚ) < 1024 * 1024 := by norm_num
  have hiff : 0 < (current : ℚ) / (1024 * 1024) / (t - st) ↔ 0 < (current : ℚ) := by
    rw [lt_div_iff₀ he, zero_mul, lt_div_iff₀ h1, zero_mul]
  refine ⟨{ p with
      current := current,
      total := total,
      percentage := percentage,
      speed := formatFixed2 ((current : ℚ) / (1024 * 1024) / (t - st)) ++ " MB/s",
      eta := formatHMS
        (if 0 < (current : ℚ) / (1024 * 1024) / (t - st) then
          ((total : ℚ) - (current : ℚ)) /
            ((current : ℚ) / (1024 * 1024) / (t - st) * (1024 * 1024))
        else 0) },
    ?_, rfl, ?_, ?_, by decide, rfl, rfl, rfl⟩
  · simp [on_download_progress, hp, hst, hpos, hlt, he, dictLookup_dictInsert_self]
  · intro hc
    have hcq : 0 < (current : ℚ) := by exact_mod_cast hc
    simp [hiff.mpr hcq]
  · intro hc
    have hcq : ¬ 0 < (current : ℚ) := by
      simp only [not_lt]
      exact_mod_cast hc
    simp [hiff, hcq]

/-- Witness for C7 at a concrete update: one mebibyte downloaded after one
second gives speed "1.00 MB/s" and, with one mebibyte remaining, eta
"00:00:01". -/
theorem C7_speed_eta_witness :
    ∃ p', dictLookup (on_download_progress 1 "cosyvoice2" 1048576 2097152 50
            s_downloading).1.download_progress "cosyvoice2" = some p' ∧
      p'.speed = formatFixed2 ((1048576 : ℚ) / (1024 * 1024) / (1 - 0)) ++ " MB/s" ∧
      ((0 : Int) < 1048576 →
        p'.eta = formatHMS (((2097152 : ℚ) - (1048576 : ℚ)) /
          ((1048576 : ℚ) / (1024 * 1024) / (1 - 0) * (1024 * 1024)))) ∧
      ((1048576 : Int) ≤ 0 → p'.eta = formatHMS 0) ∧
      formatHMS 0 = "00:00:00" ∧
      p'.current = 1048576 ∧ p'.total = 2097152 ∧ p'.percentage = 50 :=
  C7_speed_eta s_downloading "cosyvoice2" p_started 0 1 1048576 2097152 50
    (by decide) (by decide) (by decide) (by decide) (by norm_num)

/-- C9: only the primary model cosyvoice3_2512 undergoes the real
integrity check before being reported Downloaded; for every other catalog
model the verification reduces to a directory-existence test on the path
the path manager returns. -/
theorem C9_integrity_dispatch (s : ServiceState) (pm : PathManager)
    (fs : String → Bool) (hpm : s.path_manager = some pm) :
    (∀ model_id p, model_id ∈ non_primary_model_ids →
        path_checks pm model_id = some (Except.ok p) →
        (check_model_status s fs model_id = ModelDownloadStatus.DOWNLOADED ↔
          fs p = true)) ∧
      (∀ p, pm.get_cosyvoice3_2512_model_path = Except.ok p →
        (check_model_status s fs "cosyvoice3_2512" = ModelDownloadStatus.DOWNLOADED ↔
          pm.check_cosyvoice3_model_integrity p = Except.ok true)) := by
  constructor
  · intro model_id p hmemb hpath
    have hne : ¬ model_id = "cosyvoice3_2512" := by
      fin_cases hmemb <;> decide
    simp only [check_model_status, hpm, hpath]
    rw [if_neg hne]
    by_cases hfs : fs p
    · simp [hfs]
    · simp [hfs]
  · intro p hpath
    have hpc : path_checks pm "cosyvoice3_2512"
        = some pm.get_cosyvoice3_2512_model_path := rfl
    simp only [check_model_status, hpm, hpc, hpath]
    rw [if_true]
    cases hint : pm.check_cosyvoice3_model_integrity p with
    | error e => simp
    | ok b => cases b <;> simp

/-- Witness for C9: on a path manager whose getters succeed and a
filesystem where every directory exists, cosyvoice2 is reported
Downloaded by the bare existence check. -/
theorem C9_integrity_dispatch_witness :
    check_model_status s_with_pm fs_all "cosyvoice2" =
      ModelDownloadStatus.DOWNLOADED :=
  ((C9_integrity_dispatch s_with_pm pm_missing fs_all rfl).1
    "cosyvoice2" "models/CosyVoice2-0.5B" (by decide) rfl).mpr rfl

/-- Prepending a lower bound of a chain keeps it a chain. -/
lemma chain'_le_cons_of_lb {a : Int} {L : List Int}
    (hL : List.Chain' (· ≤ ·) L) (hlb : ∀ x ∈ L, a ≤ x) :
    List.Chain' (· ≤ ·) (a :: L) := by
  rw [List.chain'_cons']
  exact ⟨fun y hy => hlb y (List.mem_of_mem_head? hy), hL⟩

/-- A rational at most 100 has floor at most 100. -/
lemma floor_le_100 {f : ℚ} (h : f ≤ 100) : Int.floor f ≤ 100 := by
  have h100 : (100 : Int) = Int.floor (100 : ℚ) := by norm_num
  rw [h100]
  exact Int.floor_le_floor h

/-- One `_update_fake_progress` call with a nonnegative random increment:
the simulated percentage does not decrease, stays at most 100, and the call
emits either nothing or the single progress signal derived from the new
percentage. -/
lemma update_fake_progress_spec (model_id : String) (st : FakeProgressState)
    (now inc : ℚ) (hinc : 0 ≤ inc) (h100 : st.current_fake_progress ≤ 100) :
    st.current_fake_progress ≤
        (update_fake_progress model_id st now inc).1.current_fake_progress ∧
      (update_fake_progress model_id st now inc).1.current_fake_progress ≤ 100 ∧
      ((update_fake_progress model_id st now inc).2 = [] ∨
        (update_fake_progress model_id st now inc).2 =
          [Signal.progress model_id
            (fake_bytes (update_fake_progress model_id st now inc).1.current_fake_progress)
            fake_total
            (Int.floor (update_fake_progress model_id st now inc).1.current_fake_progress)]) := by
  unfold update_fake_progress
  by_cases h90 : (90 : ℚ) ≤ st.current_fake_progress
  · rw [if_pos h90]
    exact ⟨le_refl _, h100, Or.inl rfl⟩
  · rw [if_neg h90]
    by_cases htime : (1/2 : ℚ) ≤ now - st.last_fake_update_time
    · rw [if_pos htime]
      refine ⟨?_, ?_, Or.inr rfl⟩
      · exact le_min (le_of_lt (lt_of_not_le h90)) (le_add_of_nonneg_right hinc)
      · exact le_trans (min_le_left _ _) (by norm_num)
    · rw [if_neg htime]
      exact ⟨le_refl _, h100, Or.inl rfl⟩

/-- One real-progress check with a real percentage at most 100: the
simulated percentage does not decrease, stays at most 100, and the check
emits either nothing or the single progress signal derived from the new
percentage. -/
lemma check_real_progress_spec (model_id : String) (st : FakeProgressState)
    (now : ℚ) (real : Option Int)
    (hreal : ∀ rp, real = some rp → rp ≤ 100)
    (h100 : st.current_fake_progress ≤ 100) :
    st.current_fake_progress ≤
        (check_real_progress model_id st now real).1.current_fake_progress ∧
      (check_real_progress model_id st now real).1.current_fake_progress ≤ 100 ∧
      ((check_real_progress model_id st now real).2 = [] ∨
        (check_real_progress model_id st now real).2 =
          [Signal.progress model_id
            (fake_bytes (check_real_progress model_id st now real).1.current_fake_progress)
            fake_total
            (Int.floor (check_real_progress model_id st now real).1.current_fake_progress)]) := by
  cases real with
  | none => exact ⟨le_refl _, h100, Or.inl rfl⟩
  | some rp =>
    unfold check_real_progress
    dsimp only
    by_cases hlt : st.current_fake_progress < (rp : ℚ)
    · rw [if_pos hlt]
      refine ⟨le_of_lt hlt, ?_, Or.inr ?_⟩
      · have hrp : rp ≤ 100 := hreal rp rfl
        show ((rp : Int) : ℚ) ≤ 100
        exact_mod_cast hrp
      · have hcast : ((rp : ℚ)) * (10 * 1024 * 1024) =
            ((rp * (10 * 1024 * 1024) : Int) : ℚ) := by
          push_cast
          ring
        show [Signal.progress model_id (rp * (10 * 1024 * 1024)) fake_total rp]
            = [Signal.progress model_id (fake_bytes ((rp : Int) : ℚ)) fake_total
                (Int.floor ((rp : Int) : ℚ))]
        unfold fake_bytes
        rw [hcast, Int.floor_intCast, Int.floor_intCast]
    · rw [if_neg hlt]
      exact ⟨le_refl _, h100, Or.inl rfl⟩

/-- Invariant of the polling loop: with nonnegative fake increments and
real percentages at most 100, the simulated percentage is nondecreasing and
bounded by 100, the emitted percentages form a nondecreasing chain, and
every emitted percentage lies between the floor of the starting percentage
and 100. -/
lemma poll_loop_invariant (model_id : String) (steps : List PollStep) :
    ∀ st : FakeProgressState,
      (∀ step ∈ steps, 0 ≤ step.inc) →
      (∀ step ∈ steps, ∀ rp, step.real = some rp → rp ≤ 100) →
      st.current_fake_progress ≤ 100 →
      (st.current_fake_progress ≤
          (poll_loop model_id st steps).1.current_fake_progress ∧
        (poll_loop model_id st steps).1.current_fake_progress ≤ 100) ∧
      List.Chain' (· ≤ ·) (progress_pcts (poll_loop model_id st steps).2) ∧
      (∀ x ∈ progress_pcts (poll_loop model_id st steps).2,
        Int.floor st.current_fake_progress ≤ x ∧ x ≤ 100) := by
  induction steps with
  | nil =>
    intro st _ _ h100
    simp [poll_loop, progress_pcts, h100]
  | cons step rest ih =>
    intro st hinc hreal h100
    have hinc1 : 0 ≤ step.inc := hinc step (by simp)
    have hreal1 : ∀ rp, step.real = some rp → rp ≤ 100 := hreal step (by simp)
    have hincr : ∀ s ∈ rest, 0 ≤ s.inc := fun s hs => hinc s (by simp [hs])
    have hrealr : ∀ s ∈ rest, ∀ rp, s.real = some rp → rp ≤ 100 :=
      fun s hs => hreal s (by simp [hs])
    obtain ⟨hu1, hu2, huE⟩ :=
      update_fake_progress_spec model_id st step.now step.inc hinc1 h100
    obtain ⟨hc1, hc2, hcE⟩ := check_real_progress_spec model_id
      (update_fake_progress model_id st step.now step.inc).1 step.now step.real
      hreal1 hu2
    obtain ⟨⟨hp1, hp2⟩, hpc, hpb⟩ := ih
      (check_real_progress model_id
        (update_fake_progress model_id st step.now step.inc).1 step.now step.real).1
      hincr hrealr hc2
    have hloop : poll_loop model_id st (step :: rest) =
        ((poll_loop model_id
            (check_real_progress model_id
              (update_fake_progress model_id st step.now step.inc).1 step.now
              step.real).1 rest).1,
          (update_fake_progress model_id st step.now step.inc).2
            ++ (check_real_progress model_id
                (update_fake_progress model_id st step.now step.inc).1 step.now
                step.real).2
            ++ (poll_loop model_id
                (check_real_progress model_id
                  (update_fake_progress model_id st step.now step.inc).1 step.now
                  step.real).1 rest).2) := rfl
    rw [hloop]
    have hf1f2 : (update_fake_progress model_id st step.now step.inc).1.current_fake_progress ≤
        (check_real_progress model_id
          (update_fake_progress model_id st step.now step.inc).1 step.now
          step.real).1.current_fake_progress := hc1
    refine ⟨⟨le_trans hu1 (le_trans hc1 hp1), hp2⟩, ?_, ?_⟩
    · rw [progress_pcts_append, progress_pcts_append]
      rcases huE with h1 | h1 <;> rcases hcE with h2 | h2 <;>
        rw [h1, h2] <;> simp only [progress_pcts, List.nil_append, List.cons_append]
      · exact hpc
      · exact chain'_le_cons_of_lb hpc (fun x hx => (hpb x hx).1)
      · refine chain'_le_cons_of_lb hpc ?_
        intro x hx
        exact le_trans (Int.floor_le_floor hc1) (hpb x hx).1
      · refine chain'_le_cons_of_lb ?_ ?_
        · exact chain'_le_cons_of_lb hpc (fun x hx => (hpb x hx).1)
        · intro x hx
          rcases List.mem_cons.mp hx with hx | hx
          · subst hx
            exact Int.floor_le_floor hc1
          · exact le_trans (Int.floor_le_floor hc1) (hpb x hx).1
    · rw [progress_pcts_append, progress_pcts_append]
      intro x hx
      rcases List.mem_append.mp hx with hx' | hx'
      · rcases List.mem_append.mp hx' with hx'' | hx''
        · rcases huE with h1 | h1
          · rw [h1] at hx''
            simp [progress_pcts] at hx''
          · rw [h1] at hx''
            simp only [progress_pcts, List.mem_singleton] at hx''
            subst hx''
            exact ⟨Int.floor_le_floor hu1, floor_le_100 hu2⟩
        · rcases hcE with h2 | h2
          · rw [h2] at hx''
            simp [progress_pcts] at hx''
          · rw [h2] at hx''
            simp only [progress_pcts, List.mem_singleton] at hx''
            subst hx''
            exact ⟨Int.floor_le_floor (le_trans hu1 hc1), floor_le_100 hc2⟩
      · constructor
        · exact le_trans (Int.floor_le_floor (le_trans hu1 hc1)) (hpb x hx').1
        · exact (hpb x hx').2

/-- C5 counterexample: a completed download whose polling loop observed a
real progress of 50% emits bytes_downloaded 524288000 and then the terminal
success emission with bytes_downloaded 100 (and bytes_total 100): the
reported bytes_downloaded sequence is not non-decreasing. -/
theorem C5_counterexample :
    progress_bytes (run_signals "cosyvoice2"
        [{ now := 0, inc := 0, real := some 50 }] 0 false true none)
        = [524288000, 100] ∧
      ¬ List.Chain' (· ≤ ·) (progress_bytes (run_signals "cosyvoice2"
        [{ now := 0, inc := 0, real := some 50 }] 0 false true none)) := by
  have hbytes : progress_bytes (run_signals "cosyvoice2"
      [{ now := 0, inc := 0, real := some 50 }] 0 false true none)
      = [524288000, 100] := by decide
  refine ⟨hbytes, ?_⟩
  rw [hbytes]
  simp [List.chain'_cons]

/-- C5 (amended): for a completed (successful, non-cancelled) download, the
sequence of percentage values reported via progress callbacks is
non-decreasing and ends at 100 — provided the randomized fake increments
are nonnegative and observed real progress is at most 100, as in the
source; the bytes_downloaded values, by contrast, are simulated
(10 MiB per percentage point against a fixed 1 GiB total) and drop to 100
at the terminal emission. -/
theorem C5_monotone_percentages (model_id : String) (steps : List PollStep)
    (t0 : ℚ)
    (hinc : ∀ step ∈ steps, 0 ≤ step.inc)
    (hreal : ∀ step ∈ steps, ∀ rp, step.real = some rp → rp ≤ 100) :
    List.Chain' (· ≤ ·)
        (progress_pcts (run_signals model_id steps t0 false true none)) ∧
      (progress_pcts (run_signals model_id steps t0 false true none)).getLast?
        = some 100 := by
  have hpcts : progress_pcts (run_signals model_id steps t0 false true none) =
      progress_pcts (poll_loop model_id
        { current_fake_progress := 0, last_fake_update_time := t0 } steps).2
        ++ [100] := by
    simp [run_signals, dwp_signals, terminal_signals, progress_pcts_append,
      progress_pcts]
  obtain ⟨⟨h1, h2⟩, hchain, hbounds⟩ := poll_loop_invariant model_id steps
    { current_fake_progress := 0, last_fake_update_time := t0 } hinc hreal
    (by norm_num)
  rw [hpcts]
  constructor
  · rw [List.chain'_append]
    refine ⟨hchain, List.chain'_singleton _, ?_⟩
    intro x hx y hy
    simp only [List.head?_cons, Option.mem_def, Option.some.injEq] at hy
    subst hy
    exact (hbounds x (List.mem_of_mem_getLast? hx)).2
  · exact getLast?_append_singleton _ _

/-- Witness for C5: a run with one poll observation (fake increment 1,
real progress 30) has percentage trace [1, 30, 100]. -/
theorem C5_monotone_percentages_witness :
    List.Chain' (· ≤ ·) (progress_pcts (run_signals "cosyvoice2"
        [{ now := 1, inc := 1, real := some 30 }] 0 false true none)) ∧
      (progress_pcts (run_signals "cosyvoice2"
        [{ now := 1, inc := 1, real := some 30 }] 0 false true none)).getLast?
        = some 100 :=
  C5_monotone_percentages "cosyvoice2" [{ now := 1, inc := 1, real := some 30 }] 0
    (by decide) (by decide)

end CosyVoiceApp
